import Mathlib

/-!
Verification development for the eradiate data-handling slice:
* `src/eradiate/util/brdf_viewer.py`, class `DataArrayBRDFAdapter`
  (axis validation, `phi_o` boundary completion, `plotting_data`);
* `src/eradiate/data/__init__.py` (`open`, `registered`, `find`).

Python exceptions are modelled with `Except` over explicit error types;
numeric coordinate values are rationals; a labeled 5-D array is modelled
by its dimension-name list, one coordinate list per named axis, and a
positional cell function.
-/

namespace Eradiate

/-- Errors raised by `DataArrayBRDFAdapter` and its methods.
`missingAxis` models the `ValueError` naming a required dimension absent
from the data; `attributeError` models Python's `AttributeError` carrying
the name of the attribute that failed to resolve; `incompleteBoundary`
models the `ValueError` "Data contains data for neither 0° nor 360°!";
`noExactMatch` models the `ValueError` raised by `plotting_data` when a
query key is not on the grid. -/
inductive AdapterError where
  | missingAxis (axis : String)
  | attributeError (attrName : String)
  | incompleteBoundary
  | noExactMatch
  deriving DecidableEq, Repr

/-- Model of an `xarray.DataArray` as used by `DataArrayBRDFAdapter`: the
list of dimension names actually present (`dims`), one ordered coordinate
list per required axis name, and the cells as a positional function over
the five index positions `(theta_i, phi_i, theta_o, phi_o, wavelength)`.
For an array that genuinely has the five dimensions, `dims` lists the five
required names; `_check_data` only inspects `dims`. -/
structure DataArray where
  dims : List String
  theta_i : List ℚ
  phi_i : List ℚ
  theta_o : List ℚ
  phi_o : List ℚ
  wavelength : List ℚ
  values : Nat → Nat → Nat → Nat → Nat → ℚ

/-- The required dimension names, in the order `_check_data` iterates them. -/
def requiredDims : List String :=
  ["theta_i", "phi_i", "theta_o", "phi_o", "wavelength"]

/-- First element of `required` that is not in `dims` (the `for` loop of
`_check_data` raises on the first missing dimension). -/
def firstMissing : List String → List String → Option String
  | [], _ => none
  | r :: rs, dims => if r ∈ dims then firstMissing rs dims else some r

/-- Embeds `DataArrayBRDFAdapter._check_data`: raise `ValueError` naming the
first required dimension absent from the data's `dims`. (The preceding
`isinstance` check is rendered vacuous by typing.) -/
def checkData (d : DataArray) : Except AdapterError Unit :=
  match firstMissing requiredDims d.dims with
  | some a => .error (.missingAxis a)
  | none => .ok ()

/-- Embeds `DataArrayBRDFAdapter._copy_phi_o_values(origin, target)`:
build a new array whose `phi_o` coordinate list has `target` appended
(`np.append`), copy every existing cell into the corresponding position
(the vectorized index assignment over the original index ranges leaves the
appended slice zero-initialised), then the `xr.where` step overwrites every
position whose `phi_o` coordinate equals `target` with the cell selected at
`phi_o = origin` (`.sel` on the label `origin`, i.e. its first index),
all other axes held fixed. -/
def copy_phi_o_values (d : DataArray) (origin target : ℚ) : DataArray :=
  let n := d.phi_o.length
  let phiNew := d.phi_o ++ [target]
  let iOrigin := d.phi_o.indexOf origin
  { d with
    phi_o := phiNew
    values := fun i j k l m =>
      if phiNew.getD l 0 = target then d.values i j k iOrigin m
      else if l < n then d.values i j k l m
      else 0 }

/-- `FLAG_GRIDDED_ADAPTER = 0b01`. -/
def FLAG_GRIDDED_ADAPTER : Nat := 1

/-- The constructed adapter: the (possibly replaced) data array and the
`flag` attribute set by `__attrs_post_init__`. -/
structure DataArrayBRDFAdapter where
  data : DataArray
  flag : Nat

/-- Embeds construction of `DataArrayBRDFAdapter`: the `attrs` validator
`_check_data` runs first, then `__attrs_post_init__` runs its `if`/`elif`
chain on the `phi_o` coordinates.  Both completion branches invoke
`self.copy_phi_o_values(...)`, an attribute that does not exist on the
class (the method is defined as `_copy_phi_o_values`, with a leading
underscore), so each of those branches raises `AttributeError` at the
lookup of the name `copy_phi_o_values` before any copying can happen.
The final `elif`, which would raise the neither-boundary `ValueError`, is
kept exactly as written; its condition requires `0 ∉ phi_o`, which the
first branch has already captured, so it is dead code. -/
def mkDataArrayBRDFAdapter (d : DataArray) : Except AdapterError DataArrayBRDFAdapter :=
  match checkData d with
  | .error e => .error e
  | .ok _ =>
    if (0 : ℚ) ∉ d.phi_o then
      .error (.attributeError "copy_phi_o_values")
    else if (360 : ℚ) ∉ d.phi_o then
      .error (.attributeError "copy_phi_o_values")
    else if (0 : ℚ) ∉ d.phi_o ∧ (360 : ℚ) ∉ d.phi_o then
      .error .incompleteBoundary
    else
      .ok { data := d, flag := FLAG_GRIDDED_ADAPTER }

/-- Embeds `DataArrayBRDFAdapter.plotting_data(wi, wavelength)`: if
`theta_i`, `phi_i` or `wavelength` is not literally among the respective
coordinate lists, raise the no-exact-match `ValueError`; otherwise return
the full `theta_o` coordinates, the full `phi_o` coordinates, and the 2-D
block of cells at the selected `(theta_i, phi_i, wavelength)` labels
(`.sel` resolves each label to its index on the axis), laid out as a
`theta_o`-indexed list of `phi_o`-indexed rows. -/
def plotting_data (a : DataArrayBRDFAdapter) (theta_i phi_i wavelength : ℚ) :
    Except AdapterError (List ℚ × List ℚ × List (List ℚ)) :=
  let d := a.data
  if theta_i ∉ d.theta_i ∨ phi_i ∉ d.phi_i ∨ wavelength ∉ d.wavelength then
    .error .noExactMatch
  else
    .ok (d.theta_o, d.phi_o,
      (List.range d.theta_o.length).map fun k =>
        (List.range d.phi_o.length).map fun l =>
          d.values (d.theta_i.indexOf theta_i) (d.phi_i.indexOf phi_i) k l
            (d.wavelength.indexOf wavelength))

/-- Errors raised by the `eradiate.data` module.  `missingArgument` models
the `ValueError` "if 'path' is None, 'category' and 'id' must not be None";
`unknownCategory` the `ValueError` "invalid data category '...'";
`unknownIdentifier` a getter's `ValueError` for an id it does not know;
`unsupportedResource` the `ValueError` "cannot load resource ..." naming
the resolved file name. -/
inductive DataError where
  | missingArgument
  | unknownCategory (category : String)
  | unknownIdentifier (id : String)
  | unsupportedResource (fname : String)
  deriving DecidableEq, Repr

/-- An opaque `xarray.Dataset` value: either one loaded from a resolved
file via `xr.open_dataset` or one produced by a getter. -/
inductive Dataset where
  | loaded (fname : String)
  | value (tag : String)
  deriving DecidableEq, Repr

/-- A data getter as consulted by the `_getters` registry.  The concrete
getters (`_AbsorptionGetter`, `_SolarIrradianceGetter`) live in modules not
under `src/`; the module code only calls their `open`, `registered` and
`find` capabilities, so a getter is modelled by those three. -/
structure Getter where
  openData : String → Except DataError Dataset
  registeredIds : List String
  findReport : List (String × Bool)

/-- Extension part of `os.path.splitext(p)` (POSIX): the suffix starting at
the last `.` of the base name, provided that dot is preceded, within the
base name, by at least one character that is not a dot (leading dots of the
base name never begin an extension). -/
def extOf (p : String) : String :=
  let base := (p.data.reverse.takeWhile fun c => c ≠ '/').reverse
  let afterRev := base.reverse.takeWhile fun c => c ≠ '.'
  if base.contains '.' then
    let d := base.length - afterRev.length - 1
    if (base.take d).any (fun c => c ≠ '.') then String.mk (base.drop d) else ""
  else ""

/-- Embeds `eradiate.data.open(category, id, path)`.  The registry `reg`
models the module-level `_getters` mapping; `resolve` models
`PathResolver.resolve` (`eradiate.util.presolver` is not under `src/`, so
resolution is an abstract parameter whose output is the resolved file
name).  If `path` is `None`: both `category` and `id` must be supplied,
the category is looked up (`KeyError` becomes the invalid-category
`ValueError`), and the getter's `open(id)` result — success or
`ValueError` — is returned unchanged (`except ValueError: raise`).
Otherwise the path branch runs: resolve, inspect the `os.path.splitext`
extension, load on `.nc`, else raise the cannot-load `ValueError` naming
the resolved name. -/
def dataOpen (reg : List (String × Getter)) (resolve : String → String)
    (category id path : Option String) : Except DataError Dataset :=
  match path with
  | none =>
    match category, id with
    | some c, some i =>
      match List.lookup c reg with
      | none => .error (.unknownCategory c)
      | some g => g.openData i
    | _, _ => .error .missingArgument
  | some p =>
    let fname := resolve p
    if extOf fname = ".nc" then .ok (.loaded fname)
    else .error (.unsupportedResource fname)

/-- Embeds `eradiate.data.registered(category)`: look the category up in
the registry, raise the invalid-category `ValueError` if absent, else
return the getter's `registered()` result. -/
def dataRegistered (reg : List (String × Getter)) (category : String) :
    Except DataError (List String) :=
  match List.lookup category reg with
  | none => .error (.unknownCategory category)
  | some g => .ok g.registeredIds

/-- Embeds `eradiate.data.find(category)`: look the category up in the
registry, raise the invalid-category `ValueError` if absent, else return
the getter's `find()` report. -/
def dataFind (reg : List (String × Getter)) (category : String) :
    Except DataError (List (String × Bool)) :=
  match List.lookup category reg with
  | none => .error (.unknownCategory category)
  | some g => .ok g.findReport

/-! Concrete arrays and getters used as witnesses. -/

/-- Cell values of the concrete witness arrays: an injective encoding of
the index tuple, so distinct cells hold distinct values. -/
def exampleValues : Nat → Nat → Nat → Nat → Nat → ℚ :=
  fun i j k l m => ((i * 10000 + j * 1000 + k * 100 + l * 10 + m : Nat) : ℚ)

/-- A well-formed gridded array whose `phi_o` axis holds both 0 and 360. -/
def dBoth : DataArray :=
  { dims := requiredDims
    theta_i := [0, 30]
    phi_i := [0, 90]
    theta_o := [0, 45, 90]
    phi_o := [0, 90, 180, 270, 360]
    wavelength := [550]
    values := exampleValues }

/-- A gridded array whose `phi_o` axis is `[0, 90, 180, 270]` (360 missing). -/
def dMissing360 : DataArray :=
  { dBoth with phi_o := [0, 90, 180, 270] }

/-- A gridded array whose `phi_o` axis is `[90, 180, 270, 360]` (0 missing). -/
def dMissing0 : DataArray :=
  { dBoth with phi_o := [90, 180, 270, 360] }

/-- A gridded array whose `phi_o` axis is `[10, 90, 180]` (neither 0 nor 360). -/
def dNeither : DataArray :=
  { dBoth with phi_o := [10, 90, 180] }

/-- An array lacking the `phi_o` dimension. -/
def dNoPhiO : DataArray :=
  { dBoth with dims := ["theta_i", "phi_i", "theta_o", "wavelength"] }

/-- The adapter built from `dBoth`. -/
def aBoth : DataArrayBRDFAdapter :=
  { data := dBoth, flag := FLAG_GRIDDED_ADAPTER }

/-- A concrete getter knowing the single identifier `known_id`. -/
def getterA : Getter :=
  { openData := fun i =>
      if i = "known_id" then .ok (.value "known_id")
      else .error (.unknownIdentifier i)
    registeredIds := ["known_id"]
    findReport := [("known_id", true)] }

/-! Theorems. -/

/-- `firstMissing` finds a witnessing element whenever one of `rs` is
missing from `dims`, and what it returns is indeed a missing element. -/
theorem firstMissing_spec (rs dims : List String) (h : ∃ a ∈ rs, a ∉ dims) :
    ∃ a, firstMissing rs dims = some a ∧ a ∈ rs ∧ a ∉ dims := by
  induction rs with
  | nil => simp at h
  | cons r rs ih =>
    by_cases hr : r ∈ dims
    · obtain ⟨a, ha, hna⟩ := h
      rcases List.mem_cons.mp ha with rfl | ha2
      · exact absurd hr hna
      · obtain ⟨b, hb1, hb2, hb3⟩ := ih ⟨a, ha2, hna⟩
        exact ⟨b, by simp [firstMissing, hr, hb1], List.mem_cons_of_mem _ hb2, hb3⟩
    · exact ⟨r, by simp [firstMissing, hr], List.mem_cons_self _ _, hr⟩

/-- The neither-boundary `ValueError` of `__attrs_post_init__` can never be
raised: its `elif` guard requires `0 ∉ phi_o`, a case the first branch has
already captured, so the branch is dead code. -/
theorem incompleteBoundary_unreachable (d : DataArray) :
    mkDataArrayBRDFAdapter d ≠ .error .incompleteBoundary := by
  unfold mkDataArrayBRDFAdapter checkData
  cases hm : firstMissing requiredDims d.dims with
  | some a => simp
  | none =>
    by_cases h0 : (0 : ℚ) ∈ d.phi_o <;> by_cases h360 : (360 : ℚ) ∈ d.phi_o <;>
      simp [h0, h360]

/-- C8: an array lacking at least one of the five required axis names is
rejected by the validator with the error naming the first missing axis, in
the order `_check_data` iterates; construction returns that error, so it
never reaches the boundary-completion step. -/
theorem construction_fails_on_missing_axis (d : DataArray)
    (h : ∃ a ∈ requiredDims, a ∉ d.dims) :
    ∃ a, firstMissing requiredDims d.dims = some a ∧ a ∈ requiredDims ∧ a ∉ d.dims ∧
      mkDataArrayBRDFAdapter d = .error (.missingAxis a) := by
  obtain ⟨a, h1, h2, h3⟩ := firstMissing_spec requiredDims d.dims h
  exact ⟨a, h1, h2, h3, by simp [mkDataArrayBRDFAdapter, checkData, h1]⟩

/-- Witness for C8: the array lacking `phi_o` is rejected naming `phi_o`. -/
theorem construction_fails_on_missing_axis_witness :
    ∃ a, firstMissing requiredDims dNoPhiO.dims = some a ∧ a ∈ requiredDims ∧
      a ∉ dNoPhiO.dims ∧ mkDataArrayBRDFAdapter dNoPhiO = .error (.missingAxis a) :=
  construction_fails_on_missing_axis dNoPhiO ⟨"phi_o", by decide, by decide⟩

/-- C10: when both boundary values 0 and 360 are on the `phi_o` axis of a
well-formed gridded array, construction performs no boundary completion:
the stored array is exactly the supplied one, only the flag is set. -/
theorem construction_keeps_data_when_both_boundaries_present (d : DataArray)
    (hdims : checkData d = .ok ())
    (h0 : (0 : ℚ) ∈ d.phi_o) (h360 : (360 : ℚ) ∈ d.phi_o) :
    mkDataArrayBRDFAdapter d = .ok { data := d, flag := FLAG_GRIDDED_ADAPTER } := by
  unfold mkDataArrayBRDFAdapter
  rw [hdims]
  simp [h0, h360]

/-- Witness for C10: the array with `phi_o = [0, 90, 180, 270, 360]` is
stored unchanged. -/
theorem construction_keeps_data_witness :
    mkDataArrayBRDFAdapter dBoth = .ok { data := dBoth, flag := FLAG_GRIDDED_ADAPTER } :=
  construction_keeps_data_when_both_boundaries_present dBoth rfl (by decide) (by decide)

/-- C1: on the array with `phi_o = [0, 90, 180, 270]` (360 missing)
construction does not succeed: `__attrs_post_init__` looks up the name
`copy_phi_o_values`, which the class does not define (the method is
`_copy_phi_o_values`), so `AttributeError` is raised.  The in-source
completion method itself, applied as that branch intends, does produce the
appended axis `[0, 90, 180, 270, 360]` with the cells at the appended 360
copied from 0 and the pre-existing cells unchanged. -/
theorem construction_crashes_on_missing_360 :
    mkDataArrayBRDFAdapter dMissing360 = .error (.attributeError "copy_phi_o_values")
    ∧ (copy_phi_o_values dMissing360 0 360).phi_o = [0, 90, 180, 270, 360]
    ∧ (copy_phi_o_values dMissing360 0 360).values 1 1 2 4 0
      = dMissing360.values 1 1 2 0 0
    ∧ (copy_phi_o_values dMissing360 0 360).values 1 1 2 3 0
      = dMissing360.values 1 1 2 3 0 :=
  ⟨rfl, rfl, by decide, by decide⟩

/-- C2: on the array with `phi_o = [10, 90, 180]` (neither 0 nor 360)
construction fails, but not with the neither-boundary `ValueError`: the
first branch (0 absent) fires and raises `AttributeError` at the lookup of
the undefined name `copy_phi_o_values`. -/
theorem construction_crashes_on_neither_boundary :
    mkDataArrayBRDFAdapter dNeither = .error (.attributeError "copy_phi_o_values") :=
  rfl

/-- C9: on the array with `phi_o = [90, 180, 270, 360]` (0 missing) the
first branch is selected, but instead of filling 0 from 360 it raises
`AttributeError` at the lookup of the undefined name `copy_phi_o_values`.
The in-source completion method, applied as that branch intends, would
append 0 and copy the 360 slice onto it. -/
theorem construction_crashes_on_missing_0 :
    mkDataArrayBRDFAdapter dMissing0 = .error (.attributeError "copy_phi_o_values")
    ∧ (copy_phi_o_values dMissing0 360 0).phi_o = [90, 180, 270, 360, 0]
    ∧ (copy_phi_o_values dMissing0 360 0).values 0 1 2 4 0
      = dMissing0.values 0 1 2 3 0 :=
  ⟨rfl, rfl, by decide⟩

/-- C3: on a constructed adapter, `plotting_data` raises the
no-exact-match error whenever `theta_i`, `phi_i` or `wavelength` is not
literally among the respective coordinates, and when all three are present
it returns the full `theta_o` coordinates, the full `phi_o` coordinates,
and a 2-D block of cells with one row per `theta_o` coordinate and one
column per `phi_o` coordinate, taken at the selected labels. -/
theorem plotting_data_exact_match (d : DataArray) (a : DataArrayBRDFAdapter)
    (hmk : mkDataArrayBRDFAdapter d = .ok a) (ti pii wl : ℚ) :
    (ti ∉ a.data.theta_i ∨ pii ∉ a.data.phi_i ∨ wl ∉ a.data.wavelength →
      plotting_data a ti pii wl = .error .noExactMatch)
    ∧ (ti ∈ a.data.theta_i → pii ∈ a.data.phi_i → wl ∈ a.data.wavelength →
      ∃ m, plotting_data a ti pii wl = .ok (a.data.theta_o, a.data.phi_o, m) ∧
        m.length = a.data.theta_o.length ∧
        ∀ row ∈ m, row.length = a.data.phi_o.length) := by
  constructor
  · intro h
    unfold plotting_data
    rw [if_pos h]
  · intro h1 h2 h3
    refine ⟨(List.range a.data.theta_o.length).map fun k =>
        (List.range a.data.phi_o.length).map fun l =>
          a.data.values (a.data.theta_i.indexOf ti) (a.data.phi_i.indexOf pii) k l
            (a.data.wavelength.indexOf wl), ?_, by simp, ?_⟩
    · unfold plotting_data
      rw [if_neg (by push_neg; exact ⟨h1, h2, h3⟩)]
    · intro row hrow
      simp only [List.mem_map] at hrow
      obtain ⟨k, hk, rfl⟩ := hrow
      simp

/-- Witness for C3: on the adapter over `dBoth`, the query at wavelength
551 (absent) fails with no-exact-match, and the query at
`(theta_i, phi_i) = (0, 0)`, wavelength 550 returns the full coordinate
lists and a block of 3 rows of 5 cells. -/
theorem plotting_data_exact_match_witness :
    plotting_data aBoth 0 0 551 = .error .noExactMatch
    ∧ ∃ m, plotting_data aBoth 0 0 550 = .ok (aBoth.data.theta_o, aBoth.data.phi_o, m) ∧
        m.length = aBoth.data.theta_o.length ∧
        ∀ row ∈ m, row.length = aBoth.data.phi_o.length :=
  ⟨(plotting_data_exact_match dBoth aBoth rfl 0 0 551).1 (by decide),
   (plotting_data_exact_match dBoth aBoth rfl 0 0 550).2
     (by decide) (by decide) (by decide)⟩

/-- C4: for a category string not in the registry, `open`, `registered`
and `find` each fail with the invalid-category error naming it. -/
theorem unknown_category_fails (reg : List (String × Getter)) (resolve : String → String)
    (category id : String) (h : List.lookup category reg = none) :
    dataOpen reg resolve (some category) (some id) none
      = .error (.unknownCategory category)
    ∧ dataRegistered reg category = .error (.unknownCategory category)
    ∧ dataFind reg category = .error (.unknownCategory category) := by
  refine ⟨?_, ?_, ?_⟩ <;> simp [dataOpen, dataRegistered, dataFind, h]

/-- Witness for C4: category `b` is unknown to the registry `{a: getterA}`. -/
theorem unknown_category_fails_witness :
    dataOpen [("a", getterA)] (fun p => p) (some "b") (some "x") none
      = .error (.unknownCategory "b")
    ∧ dataRegistered [("a", getterA)] "b" = .error (.unknownCategory "b")
    ∧ dataFind [("a", getterA)] "b" = .error (.unknownCategory "b") :=
  unknown_category_fails [("a", getterA)] (fun p => p) "b" "x" rfl

/-- C5: for a registered category, `open` delegates to that category's
getter: a getter failure is propagated unchanged and a getter success is
returned as is. -/
theorem open_delegates_to_getter (reg : List (String × Getter)) (resolve : String → String)
    (category id : String) (g : Getter) (h : List.lookup category reg = some g) :
    (∀ e, g.openData id = .error e →
      dataOpen reg resolve (some category) (some id) none = .error e)
    ∧ (∀ ds, g.openData id = .ok ds →
      dataOpen reg resolve (some category) (some id) none = .ok ds) := by
  constructor <;> intro x hx <;> simp [dataOpen, h, hx]

/-- Witness for C5: against the registry `{a: getterA}`, `missing_id`
propagates getterA's unknown-identifier error and `known_id` returns
getterA's result. -/
theorem open_delegates_to_getter_witness :
    dataOpen [("a", getterA)] (fun p => p) (some "a") (some "missing_id") none
      = .error (.unknownIdentifier "missing_id")
    ∧ dataOpen [("a", getterA)] (fun p => p) (some "a") (some "known_id") none
      = .ok (.value "known_id") :=
  ⟨(open_delegates_to_getter [("a", getterA)] (fun p => p) "a" "missing_id" getterA rfl).1
      (.unknownIdentifier "missing_id") rfl,
   (open_delegates_to_getter [("a", getterA)] (fun p => p) "a" "known_id" getterA rfl).2
      (.value "known_id") rfl⟩

/-- C6: path-based `open` on a resolved file name whose extension is `.nc`
succeeds with the loaded data set; on any other extension it fails with the
unsupported-resource error naming the resolved name.  The extension is the
one `os.path.splitext` computes. -/
theorem path_open_checks_extension (reg : List (String × Getter))
    (resolve : String → String) (category id : Option String) (p : String) :
    (extOf (resolve p) = ".nc" →
      dataOpen reg resolve category id (some p) = .ok (.loaded (resolve p)))
    ∧ (extOf (resolve p) ≠ ".nc" →
      dataOpen reg resolve category id (some p)
        = .error (.unsupportedResource (resolve p))) := by
  constructor <;> intro h <;> simp [dataOpen, h]

/-- Witness for C6: with identity resolution, `data.nc` loads and
`data.unknown` is rejected naming `data.unknown`. -/
theorem path_open_checks_extension_witness :
    dataOpen [] (fun q => q) none none (some "data.nc") = .ok (.loaded "data.nc")
    ∧ dataOpen [] (fun q => q) none none (some "data.unknown")
      = .error (.unsupportedResource "data.unknown") :=
  ⟨(path_open_checks_extension [] (fun q => q) none none "data.nc").1 (by decide),
   (path_open_checks_extension [] (fun q => q) none none "data.unknown").2 (by decide)⟩

/-- C7: with no path supplied, `open` fails when `category` or `id` is
missing; with a path supplied, the path branch runs regardless of
`category` and `id`, so the result is the same for every choice of them. -/
theorem open_requires_arguments_and_path_precedence
    (reg : List (String × Getter)) (resolve : String → String) :
    (∀ category id : Option String, category = none ∨ id = none →
      dataOpen reg resolve category id none = .error .missingArgument)
    ∧ (∀ c1 i1 c2 i2 : Option String, ∀ p : String,
      dataOpen reg resolve c1 i1 (some p) = dataOpen reg resolve c2 i2 (some p)) := by
  constructor
  · rintro category id (rfl | rfl)
    · cases id <;> rfl
    · cases category <;> rfl
  · intro c1 i1 c2 i2 p
    rfl

/-- Witness for C7: omitting `category` fails, and a supplied path gives
the same result whether or not `(category, id)` are also supplied. -/
theorem open_requires_arguments_witness :
    dataOpen [("a", getterA)] (fun p => p) none (some "x") none
      = .error .missingArgument
    ∧ dataOpen [("a", getterA)] (fun p => p) (some "a") (some "known_id") (some "data.nc")
      = dataOpen [("a", getterA)] (fun p => p) none none (some "data.nc") :=
  ⟨(open_requires_arguments_and_path_precedence [("a", getterA)] (fun p => p)).1
      none (some "x") (Or.inl rfl),
   (open_requires_arguments_and_path_precedence [("a", getterA)] (fun p => p)).2
      (some "a") (some "known_id") none none "data.nc"⟩

end Eradiate
